import Mathlib

/-!
Shallow embedding of the anchor-side safety evaluation engine of the
crane anti-collision controller (source: `src/anchor_anticoll.ino`).

Distances and thresholds are `float` in the source; every value the engine
compares (thresholds 500/1500, hysteresis 20, the 0.1 ingest filter, sample
distances) is exactly representable, and all operations used are order
comparisons and additions of such values, so they are embedded as `ℚ`.
Times (`millis()`, `unsigned long`) are embedded as `ℕ`, with the usual
assumption that the monotonic clock does not wrap; `now - last` is then
truncated subtraction, which agrees with the modular subtraction of the
source whenever `last ≤ now`.  The `int` zone encoding of the source is
kept as written: 0 = Safe, 1 = Warn, 2 = Stop, 3 = CommLoss.
-/

namespace CraneGuard

/-- WATCHDOG_MS from the source: signal is lost after 1000 ms. -/
def WATCHDOG_MS : Nat := 1000

/-- HYSTERESIS_CM from the source: 20 cm widening of an occupied zone. -/
def HYSTERESIS_CM : ℚ := 20

/-- MAX_LOG_EVENTS from the source: ring-buffer capacity. -/
def MAX_LOG_EVENTS : Nat := 50

/-- The `> 0.1` noise floor of the ingest filter in `uwb_task`. -/
def INGEST_MIN_CM : ℚ := mkRat 1 10

/-- One slot of the `history` ring buffer (struct `EventLog`). -/
structure EventLog where
  timestamp : String
  distance : ℚ
  zone : String
  link_quality : Int
deriving Repr, DecidableEq

/-- The global `sys` state (struct `SafetyState`). -/
structure SafetyState where
  distance_cm : ℚ
  status_msg : String
  safety_level : Nat
  last_packet_ms : Nat
  last_known_zone : Nat
  link_quality_pct : Int
  relay_red : Bool
  relay_yellow : Bool
  relay_green : Bool
  relay_health : Bool
deriving Repr, DecidableEq

/-- The global `stats` state (struct `Statistics`). -/
structure Statistics where
  red_entries : Nat
  yellow_entries : Nat
  comm_drops : Nat
  last_level_stats : Nat
deriving Repr, DecidableEq

/-- The threshold part of the global `cfg` (struct `Config`); the link
identifiers (`pan_id`, `ap_ssid`, `peer_mac`) play no role in the engine. -/
structure Config where
  limit_warn_cm : ℚ
  limit_stop_cm : ℚ
deriving Repr, DecidableEq

/-- The whole mutable state touched by `checkSafetyAndRelays`: the globals
`sys`, `stats`, `history`/`logHead`, and the function-static Modbus
debounce variables `lastCoilStatus`/`lastModbusTime`. -/
structure Machine where
  sys : SafetyState
  stats : Statistics
  history : Array EventLog
  logHead : Nat
  lastCoilStatus : Nat
  lastModbusTime : Nat
deriving Repr, DecidableEq

/-- Two-digit zero padding, as `sprintf` with `%02d` does for values
below 100 (larger values print in full, as in C). -/
def pad2 (n : Nat) : String :=
  if n < 10 then "0" ++ toString n else toString n

/-- `getUptimeStr` from the source: `hh:mm:ss` built from `millis()`. -/
def getUptimeStr (nowMs : Nat) : String :=
  let now := nowMs / 1000
  let sec := now % 60
  let mn := (now / 60) % 60
  let hr := now / 3600
  pad2 hr ++ ":" ++ pad2 mn ++ ":" ++ pad2 sec

/-- `logEvent` from the source: overwrite the slot at `logHead`, advance the
head, wrap at `MAX_LOG_EVENTS`. -/
def logEvent (t : String) (dist : ℚ) (zoneName : String) (quality : Int)
    (h : Array EventLog) (head : Nat) : Array EventLog × Nat :=
  let h' := if hlt : head < h.size then h.set ⟨head, hlt⟩ ⟨t, dist, zoneName, quality⟩ else h
  let head' := head + 1
  (h', if head' ≥ MAX_LOG_EVENTS then 0 else head')

/-- Arduino `map(x, in_min, in_max, out_min, out_max)`: C `long` arithmetic,
with division truncating toward zero (`Int.tdiv`). -/
def arduinoMap (x inMin inMax outMin outMax : Int) : Int :=
  Int.tdiv ((x - inMin) * (outMax - outMin)) (inMax - inMin) + outMin

/-- The link-quality computation of `checkSafetyAndRelays` (lines 330-332):
100 below 100 ms, 0 above 2000 ms, `map(elapsed, 100, 2000, 100, 0)`
in between. -/
def linkQuality (elapsed : Nat) : Int :=
  if elapsed < 100 then 100
  else if elapsed > 2000 then 0
  else arduinoMap elapsed 100 2000 100 0

/-- The alive-branch zone classifier (lines 335-351): hysteresis widening of
the zone currently occupied, then the two `<=` comparisons. -/
def classify (cfg : Config) (cur : Nat) (d : ℚ) : Nat × String :=
  let cur_stop := cur == 2
  let cur_warn := cur == 1
  let eff_stop := cfg.limit_stop_cm + (if cur_stop then HYSTERESIS_CM else 0)
  let eff_warn := cfg.limit_warn_cm + (if cur_warn then HYSTERESIS_CM else 0)
  if d ≤ eff_stop then (2, "DANGER: STOP")
  else if d ≤ eff_warn then (1, "WARNING: SLOW")
  else (0, "SAFE DISTANCE")

/-- The failsafe branch (lines 356-360): a function of `last_known_zone`
alone. -/
def failsafe (last_known : Nat) : Nat × String :=
  if last_known == 0 then (0, "SAFE (NO LINK)") else (3, "SIGNAL LOST")

/-- Zone label used for log entries (lines 371-374). -/
def zoneName (level : Nat) : String :=
  if level == 1 then "WARN"
  else if level == 2 then "DANGER"
  else if level == 3 then "LOSS"
  else "SAFE"

/-- The stats/logging block (lines 365-382): on a level change, bump the
counter of the new level, append a log entry when `distance_cm > 0` or the
new level is CommLoss, and record the level. -/
def recordTransition (now : Nat) (sys : SafetyState) (stats : Statistics)
    (h : Array EventLog) (head : Nat) : Statistics × Array EventLog × Nat :=
  if sys.safety_level ≠ stats.last_level_stats then
    let stats1 : Statistics :=
      { stats with
        red_entries := if sys.safety_level == 2 then stats.red_entries + 1 else stats.red_entries
        yellow_entries := if sys.safety_level == 1 then stats.yellow_entries + 1 else stats.yellow_entries
        comm_drops := if sys.safety_level == 3 then stats.comm_drops + 1 else stats.comm_drops }
    let hh :=
      if sys.distance_cm > 0 ∨ sys.safety_level = 3 then
        logEvent (getUptimeStr now) sys.distance_cm (zoneName sys.safety_level) sys.link_quality_pct h head
      else (h, head)
    ({ stats1 with last_level_stats := sys.safety_level }, hh.1, hh.2)
  else (stats, h, head)

/-- Relay output mapping (lines 385-388). -/
def setRelays (sys : SafetyState) : SafetyState :=
  { sys with
    relay_red := sys.safety_level == 2
    relay_yellow := sys.safety_level == 1
    relay_green := sys.safety_level == 0
    relay_health := sys.safety_level == 3 }

/-- The 4-bit coil pattern assembled from the relay bits (lines 393-397). -/
def coilStatus (sys : SafetyState) : Nat :=
  ((((0 : Nat) |||
    (if sys.relay_red then 1 <<< 0 else 0)) |||
    (if sys.relay_yellow then 1 <<< 1 else 0)) |||
    (if sys.relay_green then 1 <<< 2 else 0)) |||
    (if sys.relay_health then 1 <<< 3 else 0)

/-- The Modbus debounce (lines 399-404): write when the pattern changed or
more than 500 ms passed since the last write; returns
(write issued, new lastCoilStatus, new lastModbusTime). -/
def modbusStep (coil now lastCoil lastTime : Nat) : Bool × Nat × Nat :=
  if coil ≠ lastCoil ∨ now - lastTime > 500 then (true, coil, now)
  else (false, lastCoil, lastTime)

/-- `checkSafetyAndRelays` (lines 324-405): one evaluation tick at time
`now`. Returns the new machine state and whether a fieldbus write was
issued. -/
def checkSafetyAndRelays (cfg : Config) (now : Nat) (m : Machine) : Machine × Bool :=
  let elapsed := now - m.sys.last_packet_ms
  let signal_lost := elapsed > WATCHDOG_MS
  let sys0 := { m.sys with link_quality_pct := linkQuality elapsed }
  let sys1 :=
    if ¬ signal_lost then
      let r := classify cfg sys0.safety_level sys0.distance_cm
      { sys0 with safety_level := r.1, status_msg := r.2, last_known_zone := r.1 }
    else
      let r := failsafe sys0.last_known_zone
      { sys0 with safety_level := r.1, status_msg := r.2 }
  let rec1 := recordTransition now sys1 m.stats m.history m.logHead
  let sys2 := setRelays sys1
  let coil := coilStatus sys2
  let mb := modbusStep coil now m.lastCoilStatus m.lastModbusTime
  ({ sys := sys2, stats := rec1.1, history := rec1.2.1, logHead := rec1.2.2,
     lastCoilStatus := mb.2.1, lastModbusTime := mb.2.2 }, mb.1)

/-- The ingest filter of `uwb_task` (lines 417-421): a parsed ranging value
is accepted only above the 0.1 noise floor; on acceptance it updates
`distance_cm` and `last_packet_ms` together. -/
def acceptSample (now : Nat) (d : ℚ) (m : Machine) : Machine :=
  if d > INGEST_MIN_CM then
    { m with sys := { m.sys with distance_cm := d, last_packet_ms := now } }
  else m

/-- One sample-then-evaluate step: the ingest task accepts `(t, d)` and the
evaluation loop runs a tick at the same time `t`. -/
def evalStep (cfg : Config) (m : Machine) (td : Nat × ℚ) : Machine :=
  (checkSafetyAndRelays cfg td.1 (acceptSample td.1 td.2 m)).1

/-- Folding `evalStep` over a timed distance sequence. -/
def evalSeq (cfg : Config) (m : Machine) : List (Nat × ℚ) → Machine
  | [] => m
  | td :: rest => evalSeq cfg (evalStep cfg m td) rest

/-- The safety level observed after each step of `evalSeq`. -/
def levelTrace (cfg : Config) (m : Machine) : List (Nat × ℚ) → List Nat
  | [] => []
  | td :: rest =>
    let m' := evalStep cfg m td
    m'.sys.safety_level :: levelTrace cfg m' rest

/-- Whether any tick of a run of bare evaluation ticks (no new samples) at
the given times issues a fieldbus write. -/
def tickRunWrites (cfg : Config) (m : Machine) : List Nat → Bool
  | [] => false
  | t :: ts =>
    let r := checkSafetyAndRelays cfg t m
    r.2 || tickRunWrites cfg r.1 ts

/-- Zero-initialized `sys` global: C++ zero/default initialization gives
distance 0, empty message, level 0, zone 0, all relays off. -/
def initSys : SafetyState :=
  ⟨0, "", 0, 0, 0, 0, false, false, false, false⟩

/-- Zero-initialized `stats` global. -/
def initStats : Statistics := ⟨0, 0, 0, 0⟩

/-- Zero-initialized `history` ring buffer: every slot has distance 0. -/
def initHistory : Array EventLog := Array.mkArray MAX_LOG_EVENTS ⟨"", 0, "", 0⟩

/-- The machine state at startup: zeroed globals, `logHead = 0`, and the
function-static `lastCoilStatus = 0xFF`, `lastModbusTime = 0`. -/
def initMachine : Machine := ⟨initSys, initStats, initHistory, 0, 0xFF, 0⟩

/-- `loadConfig` (lines 127-141) restricted to the thresholds: read the
stored values (defaults 500/1500 when absent), then force the defaults on
any value below the 50 cm floor. -/
def loadConfig (storedStop storedWarn : Option ℚ) : Config :=
  let stop0 := storedStop.getD 500
  let warn0 := storedWarn.getD 1500
  { limit_stop_cm := if stop0 < 50 then 500 else stop0,
    limit_warn_cm := if warn0 < 50 then 1500 else warn0 }

/-- The `/save` handler (lines 510-521) restricted to the thresholds: each
parameter that is present is assigned to `cfg` as sent, with no floor
check; the resulting values are then persisted and the device restarts. -/
def saveHandler (cfg : Config) (stopParam warnParam : Option ℚ) : Config :=
  let c1 := match stopParam with
    | some v => { cfg with limit_stop_cm := v }
    | none => cfg
  match warnParam with
  | some v => { c1 with limit_warn_cm := v }
  | none => c1

/-- The filter of the `/live` snapshot (line 492): keep `distance > 0`. -/
def liveKeeps (e : EventLog) : Bool := e.distance > 0

/-- The filter of the `/download_csv` export (line 469): keep
`distance != 0`. -/
def csvKeeps (e : EventLog) : Bool := e.distance ≠ 0

/-- The event-log rows exposed by `/live`. -/
def liveHist (h : Array EventLog) : List EventLog := h.toList.filter liveKeeps

/-- The event-log rows exposed by `/download_csv`. -/
def csvRows (h : Array EventLog) : List EventLog := h.toList.filter csvKeeps

/-- Number of relay bits that are set. -/
def relayCount (sys : SafetyState) : Nat :=
  (if sys.relay_red then 1 else 0) + (if sys.relay_yellow then 1 else 0) +
    (if sys.relay_green then 1 else 0) + (if sys.relay_health then 1 else 0)

/-- The reference thresholds: stop 500 cm, warn 1500 cm, as produced by
`loadConfig` with nothing stored. -/
def exampleCfg : Config := loadConfig none none

/-- The timed distance sequence of the spec's worked example:
600, 480, 520, 1600, one sample per millisecond starting at 0. -/
def exampleSeq : List (Nat × ℚ) := [(0, 600), (1, 480), (2, 520), (3, 1600)]

lemma tick_sys_lost (cfg : Config) (now : Nat) (m : Machine)
    (h : WATCHDOG_MS < now - m.sys.last_packet_ms) :
    (checkSafetyAndRelays cfg now m).1.sys =
      setRelays { m.sys with
        link_quality_pct := linkQuality (now - m.sys.last_packet_ms),
        safety_level := (failsafe m.sys.last_known_zone).1,
        status_msg := (failsafe m.sys.last_known_zone).2 } := by
  simp [checkSafetyAndRelays, h]

lemma tick_sys_alive (cfg : Config) (now : Nat) (m : Machine)
    (h : ¬ WATCHDOG_MS < now - m.sys.last_packet_ms) :
    (checkSafetyAndRelays cfg now m).1.sys =
      setRelays { m.sys with
        link_quality_pct := linkQuality (now - m.sys.last_packet_ms),
        safety_level := (classify cfg m.sys.safety_level m.sys.distance_cm).1,
        status_msg := (classify cfg m.sys.safety_level m.sys.distance_cm).2,
        last_known_zone := (classify cfg m.sys.safety_level m.sys.distance_cm).1 } := by
  simp [checkSafetyAndRelays, h]

lemma failsafe_level (z : Nat) :
    (failsafe z).1 = if z = 0 then 0 else 3 := by
  simp only [failsafe]
  split <;> simp_all

lemma classify_level_mem (cfg : Config) (cur : Nat) (d : ℚ) :
    (classify cfg cur d).1 = 2 ∨ (classify cfg cur d).1 = 1 ∨ (classify cfg cur d).1 = 0 := by
  simp only [classify]
  split_ifs <;> simp

lemma classify_level_stop_cur (cfg : Config) (d : ℚ) :
    ((classify cfg 2 d).1 = 2 ↔ d ≤ cfg.limit_stop_cm + HYSTERESIS_CM) := by
  simp only [classify]
  split_ifs with h1 h2 <;> simp_all

lemma classify_level_stop_other (cfg : Config) (cur : Nat) (d : ℚ) (hc : cur ≠ 2) :
    ((classify cfg cur d).1 = 2 ↔ d ≤ cfg.limit_stop_cm) := by
  simp only [classify, beq_iff_eq, hc, if_false]
  split_ifs with h1 h2 <;> simp_all

lemma classify_level_warn_safe (cfg : Config) (d : ℚ) :
    ((classify cfg 1 d).1 = 0 ↔
      (cfg.limit_stop_cm < d ∧ cfg.limit_warn_cm + HYSTERESIS_CM < d)) := by
  simp only [classify]
  split_ifs with h1 h2 <;> simp_all [not_le]

lemma setRelays_level (s : SafetyState) : (setRelays s).safety_level = s.safety_level := rfl

end CraneGuard

namespace CraneGuard

/-- A machine that has confirmed zone Stop while alive and then lost the
link: zero-initialized except `last_known_zone = 2`. -/
def mStopZone : Machine := { initMachine with sys := { initSys with last_known_zone := 2 } }

/-- C1: in any signal-lost state (elapsed beyond the 1000 ms watchdog), one
evaluation tick yields level Safe iff `last_known_zone` is Safe and CommLoss
otherwise, and the resulting level is a function of `last_known_zone` alone,
independent of the configured thresholds, the distance, and how long the
signal has been lost. -/
theorem c1_failsafe_from_last_zone (cfg cfg' : Config) (now now' : Nat) (m m' : Machine)
    (h : WATCHDOG_MS < now - m.sys.last_packet_ms)
    (h' : WATCHDOG_MS < now' - m'.sys.last_packet_ms) :
    ((checkSafetyAndRelays cfg now m).1.sys.safety_level = 0 ↔ m.sys.last_known_zone = 0)
    ∧ (m.sys.last_known_zone ≠ 0 → (checkSafetyAndRelays cfg now m).1.sys.safety_level = 3)
    ∧ (m.sys.last_known_zone = m'.sys.last_known_zone →
        (checkSafetyAndRelays cfg now m).1.sys.safety_level
          = (checkSafetyAndRelays cfg' now' m').1.sys.safety_level) := by
  have e1 : (checkSafetyAndRelays cfg now m).1.sys.safety_level
      = (failsafe m.sys.last_known_zone).1 := by
    rw [tick_sys_lost cfg now m h]; rfl
  have e2 : (checkSafetyAndRelays cfg' now' m').1.sys.safety_level
      = (failsafe m'.sys.last_known_zone).1 := by
    rw [tick_sys_lost cfg' now' m' h']; rfl
  rw [e1, e2, failsafe_level, failsafe_level]
  refine ⟨?_, ?_, ?_⟩
  · split_ifs with hz <;> simp [hz]
  · intro hz; simp [hz]
  · intro hz; rw [hz]

/-- C1 witness: the failsafe theorem applied at concrete signal-lost inputs
(`mStopZone` at time 2000, against itself with a different configuration and
a different time). -/
theorem c1_failsafe_from_last_zone_witness :
    ((checkSafetyAndRelays exampleCfg 2000 mStopZone).1.sys.safety_level = 0
        ↔ mStopZone.sys.last_known_zone = 0)
    ∧ (mStopZone.sys.last_known_zone ≠ 0 →
        (checkSafetyAndRelays exampleCfg 2000 mStopZone).1.sys.safety_level = 3)
    ∧ (mStopZone.sys.last_known_zone = mStopZone.sys.last_known_zone →
        (checkSafetyAndRelays exampleCfg 2000 mStopZone).1.sys.safety_level
          = (checkSafetyAndRelays ⟨100, 60⟩ 5000 mStopZone).1.sys.safety_level) :=
  c1_failsafe_from_last_zone exampleCfg ⟨100, 60⟩ 2000 5000 mStopZone mStopZone
    (by decide) (by decide)

end CraneGuard

namespace CraneGuard

lemma relays_of_level (s : SafetyState)
    (hs : s.safety_level = 0 ∨ s.safety_level = 1 ∨ s.safety_level = 2 ∨ s.safety_level = 3) :
    relayCount (setRelays s) = 1
    ∧ ((setRelays s).relay_red = true ↔ s.safety_level = 2)
    ∧ ((setRelays s).relay_yellow = true ↔ s.safety_level = 1)
    ∧ ((setRelays s).relay_green = true ↔ s.safety_level = 0)
    ∧ ((setRelays s).relay_health = true ↔ s.safety_level = 3) := by
  rcases hs with h | h | h | h <;> simp [relayCount, setRelays, h]

lemma tick_level_mem (cfg : Config) (now : Nat) (m : Machine) :
    (checkSafetyAndRelays cfg now m).1.sys.safety_level = 0
    ∨ (checkSafetyAndRelays cfg now m).1.sys.safety_level = 1
    ∨ (checkSafetyAndRelays cfg now m).1.sys.safety_level = 2
    ∨ (checkSafetyAndRelays cfg now m).1.sys.safety_level = 3 := by
  by_cases h : WATCHDOG_MS < now - m.sys.last_packet_ms
  · rw [tick_sys_lost cfg now m h, setRelays_level]
    show (failsafe m.sys.last_known_zone).1 = 0 ∨ _ ∨ _ ∨ _
    rw [failsafe_level]
    split_ifs <;> simp
  · rw [tick_sys_alive cfg now m h, setRelays_level]
    show (classify cfg m.sys.safety_level m.sys.distance_cm).1 = 0 ∨ _ ∨ _ ∨ _
    rcases classify_level_mem cfg m.sys.safety_level m.sys.distance_cm with h2 | h2 | h2 <;>
      simp [h2]

/-- C2: after any evaluation tick exactly one relay bit is set, and the
mapping is red iff Stop, yellow iff Warn, green iff Safe, health iff
CommLoss. -/
theorem c2_relay_exclusivity (cfg : Config) (now : Nat) (m : Machine) :
    relayCount (checkSafetyAndRelays cfg now m).1.sys = 1
    ∧ ((checkSafetyAndRelays cfg now m).1.sys.relay_red = true
        ↔ (checkSafetyAndRelays cfg now m).1.sys.safety_level = 2)
    ∧ ((checkSafetyAndRelays cfg now m).1.sys.relay_yellow = true
        ↔ (checkSafetyAndRelays cfg now m).1.sys.safety_level = 1)
    ∧ ((checkSafetyAndRelays cfg now m).1.sys.relay_green = true
        ↔ (checkSafetyAndRelays cfg now m).1.sys.safety_level = 0)
    ∧ ((checkSafetyAndRelays cfg now m).1.sys.relay_health = true
        ↔ (checkSafetyAndRelays cfg now m).1.sys.safety_level = 3) := by
  have hmem := tick_level_mem cfg now m
  by_cases h : WATCHDOG_MS < now - m.sys.last_packet_ms
  · rw [tick_sys_lost cfg now m h] at hmem ⊢
    exact relays_of_level _ hmem
  · rw [tick_sys_alive cfg now m h] at hmem ⊢
    exact relays_of_level _ hmem

end CraneGuard

namespace CraneGuard

/-- C3: while the link is alive, a zone's threshold is widened by the 20 cm
hysteresis margin only when the level is already in that zone: leaving Stop
requires the distance to exceed `stop_threshold + HYSTERESIS` (and from any
other level, Stop is entered iff the distance is at most the unwidened
`stop_threshold`); symmetrically, Warn is left for Safe exactly when the
distance exceeds `warn_threshold + HYSTERESIS` (besides clearing the stop
threshold). -/
theorem c3_hysteresis_stability (cfg : Config) (now : Nat) (m : Machine)
    (h : now - m.sys.last_packet_ms ≤ WATCHDOG_MS) :
    (m.sys.safety_level = 2 →
      ((checkSafetyAndRelays cfg now m).1.sys.safety_level ≠ 2
        ↔ cfg.limit_stop_cm + HYSTERESIS_CM < m.sys.distance_cm))
    ∧ (m.sys.safety_level ≠ 2 →
      ((checkSafetyAndRelays cfg now m).1.sys.safety_level = 2
        ↔ m.sys.distance_cm ≤ cfg.limit_stop_cm))
    ∧ (m.sys.safety_level = 1 →
      ((checkSafetyAndRelays cfg now m).1.sys.safety_level = 0
        ↔ (cfg.limit_stop_cm < m.sys.distance_cm
            ∧ cfg.limit_warn_cm + HYSTERESIS_CM < m.sys.distance_cm))) := by
  have h' : ¬ WATCHDOG_MS < now - m.sys.last_packet_ms := Nat.not_lt.mpr h
  have e : (checkSafetyAndRelays cfg now m).1.sys.safety_level
      = (classify cfg m.sys.safety_level m.sys.distance_cm).1 := by
    rw [tick_sys_alive cfg now m h', setRelays_level]
  rw [e]
  refine ⟨?_, ?_, ?_⟩
  · intro hcur; rw [hcur, ne_eq, classify_level_stop_cur, not_le]
  · intro hcur; rw [classify_level_stop_other cfg _ _ hcur]
  · intro hcur; rw [hcur, classify_level_warn_safe]

/-- C3 witness: the hysteresis theorem applied at a concrete alive state in
zone Stop with distance 520 and thresholds 500/1500. -/
theorem c3_hysteresis_stability_witness :
    let m := { initMachine with
      sys := { initSys with safety_level := 2, distance_cm := 520, last_packet_ms := 100 } }
    (m.sys.safety_level = 2 →
      ((checkSafetyAndRelays exampleCfg 150 m).1.sys.safety_level ≠ 2
        ↔ exampleCfg.limit_stop_cm + HYSTERESIS_CM < m.sys.distance_cm))
    ∧ (m.sys.safety_level ≠ 2 →
      ((checkSafetyAndRelays exampleCfg 150 m).1.sys.safety_level = 2
        ↔ m.sys.distance_cm ≤ exampleCfg.limit_stop_cm))
    ∧ (m.sys.safety_level = 1 →
      ((checkSafetyAndRelays exampleCfg 150 m).1.sys.safety_level = 0
        ↔ (exampleCfg.limit_stop_cm < m.sys.distance_cm
            ∧ exampleCfg.limit_warn_cm + HYSTERESIS_CM < m.sys.distance_cm))) :=
  c3_hysteresis_stability exampleCfg 150
    { initMachine with
      sys := { initSys with safety_level := 2, distance_cm := 520, last_packet_ms := 100 } }
    (by decide)

end CraneGuard

namespace CraneGuard

/-- C9: at startup no sample has ever been accepted, yet the zero-initialized
`last_known_zone` encodes Safe; once the watchdog fires (any time past
1000 ms with no sample), the failsafe therefore outputs level Safe with the
message `SAFE (NO LINK)`, treating the never-sampled state exactly like a
last confirmed Safe zone. -/
theorem c9_never_sampled_failsafe (cfg : Config) (now : Nat) (h : WATCHDOG_MS < now) :
    initMachine.sys.distance_cm = 0
    ∧ initMachine.sys.last_known_zone = 0
    ∧ (checkSafetyAndRelays cfg now initMachine).1.sys.safety_level = 0
    ∧ (checkSafetyAndRelays cfg now initMachine).1.sys.status_msg = "SAFE (NO LINK)" := by
  have hlost : WATCHDOG_MS < now - initMachine.sys.last_packet_ms := by
    simpa [initMachine, initSys] using h
  rw [tick_sys_lost cfg now initMachine hlost]
  refine ⟨rfl, rfl, ?_, ?_⟩ <;> rfl

/-- C9 witness: the cold-start failsafe theorem applied at time 1500 ms with
the reference configuration. -/
theorem c9_never_sampled_failsafe_witness :
    initMachine.sys.distance_cm = 0
    ∧ initMachine.sys.last_known_zone = 0
    ∧ (checkSafetyAndRelays exampleCfg 1500 initMachine).1.sys.safety_level = 0
    ∧ (checkSafetyAndRelays exampleCfg 1500 initMachine).1.sys.status_msg = "SAFE (NO LINK)" :=
  c9_never_sampled_failsafe exampleCfg 1500 (by decide)

end CraneGuard

namespace CraneGuard

section ConcreteEvaluation

attribute [local semireducible] Rat.add

/-- C4 counterexample: with thresholds stop 500 / warn 1500 and the level
starting at Safe, the distance sequence 600, 480, 520, 1600 does not produce
the level sequence Safe, Stop, Stop, Warn claimed by the spec, and the log
does not gain exactly two entries: the first distance 600 is at most the
warn threshold 1500, so the very first tick classifies Warn, and the last
distance 1600 exceeds 1500, so the final tick classifies Safe. -/
theorem c4_example_counterexample :
    levelTrace exampleCfg initMachine exampleSeq ≠ [0, 2, 2, 1]
    ∧ (evalSeq exampleCfg initMachine exampleSeq).logHead ≠ 2 := by
  constructor <;> decide

/-- C4 amended: with thresholds stop 500 / warn 1500, link alive, level
starting Safe, the sequence 600, 480, 520, 1600 yields levels Warn, Stop,
Stop (hysteresis holds at step 3: 520 ≤ 500 + 20), Safe; the log gains
exactly three entries (Warn at step 1 with distance 600, Stop at step 2 with
480, Safe at step 4 with 1600), and afterwards stop entries = 1 and warn
entries = 1 (the warn entry from step 1). -/
theorem c4_example_amended :
    levelTrace exampleCfg initMachine exampleSeq = [1, 2, 2, 0]
    ∧ (evalSeq exampleCfg initMachine exampleSeq).stats.red_entries = 1
    ∧ (evalSeq exampleCfg initMachine exampleSeq).stats.yellow_entries = 1
    ∧ (evalSeq exampleCfg initMachine exampleSeq).stats.comm_drops = 0
    ∧ (evalSeq exampleCfg initMachine exampleSeq).logHead = 3
    ∧ ((evalSeq exampleCfg initMachine exampleSeq).history.toList.take 3).map
        (fun e => (e.distance, e.zone))
      = [(600, "WARN"), (480, "DANGER"), (1600, "SAFE")] := by
  refine ⟨?_, ?_, ?_, ?_, ?_, ?_⟩ <;> decide

end ConcreteEvaluation

end CraneGuard

namespace CraneGuard

/-- C5 counterexample: the `/save` entry point performs no floor
re-validation: submitting stop 10 cm and warn 12 cm (both far below the
50 cm floor) leaves exactly those values in the active configuration instead
of replacing them by the defaults 500 and 1500. -/
theorem c5_save_counterexample :
    (saveHandler exampleCfg (some 10) (some 12)).limit_stop_cm = 10
    ∧ (saveHandler exampleCfg (some 10) (some 12)).limit_warn_cm = 12
    ∧ (10 : ℚ) < 50 ∧ (12 : ℚ) < 50
    ∧ (saveHandler exampleCfg (some 10) (some 12)).limit_stop_cm ≠ 500
    ∧ (saveHandler exampleCfg (some 10) (some 12)).limit_warn_cm ≠ 1500 := by
  refine ⟨rfl, rfl, by decide, by decide, by decide, by decide⟩

/-- C5 amended: the `/save` entry point assigns the submitted threshold
values to the active configuration with no floor validation and persists
them as sent; the 50 cm floor rule is applied to them only when `loadConfig`
runs again after the restart the handler triggers, which then replaces a
below-floor stop value with 500 and a below-floor warn value with 1500. -/
theorem c5_save_amended (cfg : Config) (v w : ℚ) :
    ((saveHandler cfg (some v) (some w)).limit_stop_cm = v
      ∧ (saveHandler cfg (some v) (some w)).limit_warn_cm = w)
    ∧ (v < 50 →
        (loadConfig (some (saveHandler cfg (some v) (some w)).limit_stop_cm)
          (some (saveHandler cfg (some v) (some w)).limit_warn_cm)).limit_stop_cm = 500)
    ∧ (w < 50 →
        (loadConfig (some (saveHandler cfg (some v) (some w)).limit_stop_cm)
          (some (saveHandler cfg (some v) (some w)).limit_warn_cm)).limit_warn_cm = 1500) := by
  refine ⟨⟨rfl, rfl⟩, ?_, ?_⟩
  · intro hv
    simp [saveHandler, loadConfig, hv]
  · intro hw
    simp [saveHandler, loadConfig, hw]

/-- C5 witness: the amended save/load theorem applied at the concrete
below-floor inputs stop 10 cm, warn 12 cm, with both floor hypotheses
discharged. -/
theorem c5_save_amended_witness :
    (saveHandler exampleCfg (some 10) (some 12)).limit_stop_cm = (10 : ℚ)
    ∧ (saveHandler exampleCfg (some 10) (some 12)).limit_warn_cm = (12 : ℚ)
    ∧ (loadConfig (some (saveHandler exampleCfg (some 10) (some 12)).limit_stop_cm)
        (some (saveHandler exampleCfg (some 10) (some 12)).limit_warn_cm)).limit_stop_cm = 500
    ∧ (loadConfig (some (saveHandler exampleCfg (some 10) (some 12)).limit_stop_cm)
        (some (saveHandler exampleCfg (some 10) (some 12)).limit_warn_cm)).limit_warn_cm = 1500 :=
  ⟨(c5_save_amended exampleCfg 10 12).1.1,
   (c5_save_amended exampleCfg 10 12).1.2,
   (c5_save_amended exampleCfg 10 12).2.1 (by decide),
   (c5_save_amended exampleCfg 10 12).2.2 (by decide)⟩

end CraneGuard

namespace CraneGuard

/-- C7: for every elapsed time the computed link quality lies in [0,100]; it
is 100 below 100 ms, 0 above 2000 ms, and the integer interpolation
`map(elapsed, 100, 2000, 100, 0)` in between, and the interpolation hits
exactly 100 and 0 at the boundaries 100 and 2000. -/
theorem c7_link_quality_bounds (elapsed : Nat) :
    0 ≤ linkQuality elapsed ∧ linkQuality elapsed ≤ 100
    ∧ (elapsed < 100 → linkQuality elapsed = 100)
    ∧ (2000 < elapsed → linkQuality elapsed = 0)
    ∧ (100 ≤ elapsed → elapsed ≤ 2000 →
        linkQuality elapsed = arduinoMap elapsed 100 2000 100 0)
    ∧ linkQuality 100 = 100 ∧ linkQuality 2000 = 0 := by
  have hb1 : linkQuality 100 = 100 := by decide
  have hb2 : linkQuality 2000 = 0 := by decide
  have hlow : elapsed < 100 → linkQuality elapsed = 100 := fun h => by
    simp [linkQuality, h]
  have hhigh : 2000 < elapsed → linkQuality elapsed = 0 := fun h => by
    have h' : ¬ elapsed < 100 := by omega
    simp [linkQuality, h', h]
  have hmid : 100 ≤ elapsed → elapsed ≤ 2000 →
      linkQuality elapsed = arduinoMap elapsed 100 2000 100 0 := fun h1 h2 => by
    have e1 : ¬ elapsed < 100 := by omega
    have e2 : ¬ elapsed > 2000 := by omega
    simp [linkQuality, e1, e2]
  have hbound : 0 ≤ linkQuality elapsed ∧ linkQuality elapsed ≤ 100 := by
    by_cases h1 : elapsed < 100
    · rw [hlow h1]; norm_num
    · by_cases h2 : 2000 < elapsed
      · rw [hhigh h2]; norm_num
      · rw [hmid (by omega) (by omega)]
        unfold arduinoMap
        have h3 : ((elapsed : ℤ) - 100) * ((0 : ℤ) - 100)
            = -(((elapsed : ℤ) - 100) * 100) := by ring
        rw [h3, Int.neg_tdiv,
          Int.tdiv_eq_ediv (by omega) (by norm_num)]
        have h4 : ((2000 : ℤ) - 100) = 1900 := by norm_num
        rw [h4]
        omega
  exact ⟨hbound.1, hbound.2, hlow, hhigh, hmid, hb1, hb2⟩

/-- C7 witness: the link-quality theorem applied at the concrete elapsed
time 1050 ms, with the interpolation-range hypotheses discharged. -/
theorem c7_link_quality_bounds_witness :
    0 ≤ linkQuality 1050 ∧ linkQuality 1050 ≤ 100
    ∧ linkQuality 1050 = arduinoMap 1050 100 2000 100 0 :=
  ⟨(c7_link_quality_bounds 1050).1, (c7_link_quality_bounds 1050).2.1,
   (c7_link_quality_bounds 1050).2.2.2.2.1 (by decide) (by decide)⟩

end CraneGuard

namespace CraneGuard

lemma tick_snd (cfg : Config) (now : Nat) (m : Machine) :
    (checkSafetyAndRelays cfg now m).2
      = (modbusStep (coilStatus (checkSafetyAndRelays cfg now m).1.sys)
          now m.lastCoilStatus m.lastModbusTime).1 := rfl

lemma tick_lastTime (cfg : Config) (now : Nat) (m : Machine) :
    (checkSafetyAndRelays cfg now m).1.lastModbusTime
      = (modbusStep (coilStatus (checkSafetyAndRelays cfg now m).1.sys)
          now m.lastCoilStatus m.lastModbusTime).2.2 := rfl

lemma modbusStep_fst (coil now lc lt : Nat) :
    (modbusStep coil now lc lt).1 = true ↔ (coil ≠ lc ∨ 500 < now - lt) := by
  simp only [modbusStep]
  split_ifs with h <;> simp_all

lemma modbusStep_no_write (coil now lc lt : Nat)
    (h : (modbusStep coil now lc lt).1 = false) :
    (modbusStep coil now lc lt).2.2 = lt ∧ now - lt ≤ 500 := by
  simp only [modbusStep] at h ⊢
  split_ifs at h ⊢ with hc
  push_neg at hc
  exact ⟨rfl, hc.2⟩

lemma tickRunWrites_false (cfg : Config) (ts : List Nat) (m : Machine)
    (h : tickRunWrites cfg m ts = false) :
    ∀ t ∈ ts, t - m.lastModbusTime ≤ 500 := by
  induction ts generalizing m with
  | nil => intro t ht; simp at ht
  | cons t ts ih =>
    rw [tickRunWrites] at h
    rcases Bool.or_eq_false_iff.mp h with ⟨h1, h2⟩
    have hstep := modbusStep_no_write _ t _ _ ((tick_snd cfg t m).symm.trans h1)
    intro t' ht'
    rcases List.mem_cons.mp ht' with rfl | ht'
    · exact hstep.2
    · have := ih _ h2 t' ht'
      rwa [tick_lastTime, hstep.1] at this

/-- C8: an evaluation tick issues a fieldbus write exactly when the 4-bit
coil pattern differs from the last written pattern or more than the 500 ms
heartbeat interval has elapsed since the last write; consequently any run of
ticks containing two tick times more than 500 ms apart (and starting no
earlier than the last write) issues at least one write - in particular a run
with constant level and unchanged pattern does. -/
theorem c8_heartbeat_resend (cfg : Config) (now : Nat) (m : Machine) (ts : List Nat)
    (t0 tn : Nat) (h0 : t0 ∈ ts) (hn : tn ∈ ts)
    (hle : m.lastModbusTime ≤ t0) (hspan : 500 < tn - t0) :
    ((checkSafetyAndRelays cfg now m).2 = true
      ↔ (coilStatus (checkSafetyAndRelays cfg now m).1.sys ≠ m.lastCoilStatus
          ∨ 500 < now - m.lastModbusTime))
    ∧ tickRunWrites cfg m ts = true := by
  constructor
  · rw [tick_snd]
    exact modbusStep_fst _ now m.lastCoilStatus m.lastModbusTime
  · by_contra hf
    have hfalse : tickRunWrites cfg m ts = false := by
      revert hf; cases tickRunWrites cfg m ts <;> simp
    have := tickRunWrites_false cfg ts m hfalse tn hn
    omega

/-- C8 witness: the heartbeat theorem applied to the startup machine and the
tick-time run [0, 600], whose span exceeds the 500 ms heartbeat. -/
theorem c8_heartbeat_resend_witness :
    ((checkSafetyAndRelays exampleCfg 0 initMachine).2 = true
      ↔ (coilStatus (checkSafetyAndRelays exampleCfg 0 initMachine).1.sys
            ≠ initMachine.lastCoilStatus
          ∨ 500 < 0 - initMachine.lastModbusTime))
    ∧ tickRunWrites exampleCfg initMachine [0, 600] = true :=
  c8_heartbeat_resend exampleCfg 0 initMachine [0, 600] 0 600
    (by decide) (by decide) (by decide) (by decide)

end CraneGuard

namespace CraneGuard

/-- The intermediate `sys` value of a tick after the classifier/failsafe
branch, before the relay mapping (the value `recordTransition` observes). -/
def tickSys1 (cfg : Config) (now : Nat) (m : Machine) : SafetyState :=
  let elapsed := now - m.sys.last_packet_ms
  let signal_lost := elapsed > WATCHDOG_MS
  let sys0 := { m.sys with link_quality_pct := linkQuality elapsed }
  if ¬ signal_lost then
    let r := classify cfg sys0.safety_level sys0.distance_cm
    { sys0 with safety_level := r.1, status_msg := r.2, last_known_zone := r.1 }
  else
    let r := failsafe sys0.last_known_zone
    { sys0 with safety_level := r.1, status_msg := r.2 }

lemma tick_eq (cfg : Config) (now : Nat) (m : Machine) :
    checkSafetyAndRelays cfg now m =
      ({ sys := setRelays (tickSys1 cfg now m),
         stats := (recordTransition now (tickSys1 cfg now m) m.stats m.history m.logHead).1,
         history := (recordTransition now (tickSys1 cfg now m) m.stats m.history m.logHead).2.1,
         logHead := (recordTransition now (tickSys1 cfg now m) m.stats m.history m.logHead).2.2,
         lastCoilStatus := (modbusStep (coilStatus (setRelays (tickSys1 cfg now m)))
           now m.lastCoilStatus m.lastModbusTime).2.1,
         lastModbusTime := (modbusStep (coilStatus (setRelays (tickSys1 cfg now m)))
           now m.lastCoilStatus m.lastModbusTime).2.2 },
       (modbusStep (coilStatus (setRelays (tickSys1 cfg now m)))
         now m.lastCoilStatus m.lastModbusTime).1) := rfl

lemma tickSys1_alive (cfg : Config) (now : Nat) (m : Machine)
    (h : ¬ WATCHDOG_MS < now - m.sys.last_packet_ms) :
    tickSys1 cfg now m = { m.sys with
      link_quality_pct := linkQuality (now - m.sys.last_packet_ms),
      safety_level := (classify cfg m.sys.safety_level m.sys.distance_cm).1,
      status_msg := (classify cfg m.sys.safety_level m.sys.distance_cm).2,
      last_known_zone := (classify cfg m.sys.safety_level m.sys.distance_cm).1 } := by
  simp [tickSys1, h]

lemma tickSys1_lost (cfg : Config) (now : Nat) (m : Machine)
    (h : WATCHDOG_MS < now - m.sys.last_packet_ms) :
    tickSys1 cfg now m = { m.sys with
      link_quality_pct := linkQuality (now - m.sys.last_packet_ms),
      safety_level := (failsafe m.sys.last_known_zone).1,
      status_msg := (failsafe m.sys.last_known_zone).2 } := by
  simp [tickSys1, h]

lemma recordTransition_of_eq (now : Nat) (sys : SafetyState) (stats : Statistics)
    (h : Array EventLog) (head : Nat) (heq : sys.safety_level = stats.last_level_stats) :
    recordTransition now sys stats h head = (stats, h, head) := by
  simp [recordTransition, heq]

lemma recordTransition_last_of_ne (now : Nat) (sys : SafetyState) (stats : Statistics)
    (h : Array EventLog) (head : Nat) (hne : sys.safety_level ≠ stats.last_level_stats) :
    (recordTransition now sys stats h head).1.last_level_stats = sys.safety_level := by
  simp [recordTransition, hne]

lemma recordTransition_stop_of_ne (now : Nat) (sys : SafetyState) (stats : Statistics)
    (h : Array EventLog) (head : Nat) (hlvl : sys.safety_level = 2)
    (hne : stats.last_level_stats ≠ 2) :
    (recordTransition now sys stats h head).1 =
      { red_entries := stats.red_entries + 1, yellow_entries := stats.yellow_entries,
        comm_drops := stats.comm_drops, last_level_stats := 2 } := by
  have hne' : sys.safety_level ≠ stats.last_level_stats := by
    rw [hlvl]; exact fun hh => hne hh.symm
  simp only [recordTransition]
  rw [if_pos hne']
  simp [hlvl]

lemma tick_last_level (cfg : Config) (now : Nat) (m : Machine) :
    (checkSafetyAndRelays cfg now m).1.stats.last_level_stats
      = (checkSafetyAndRelays cfg now m).1.sys.safety_level := by
  rw [tick_eq]
  show (recordTransition now (tickSys1 cfg now m) m.stats m.history m.logHead).1.last_level_stats
    = (setRelays (tickSys1 cfg now m)).safety_level
  rw [setRelays_level]
  by_cases h : (tickSys1 cfg now m).safety_level = m.stats.last_level_stats
  · rw [recordTransition_of_eq _ _ _ _ _ h]; exact h.symm
  · exact recordTransition_last_of_ne _ _ _ _ _ h

lemma classify_stop_of_le (cfg : Config) (cur : Nat) (d : ℚ)
    (h : d ≤ cfg.limit_stop_cm) : classify cfg cur d = (2, "DANGER: STOP") := by
  have h20 : (0 : ℚ) ≤ HYSTERESIS_CM := by decide
  have hh : d ≤ cfg.limit_stop_cm + (if cur == 2 then HYSTERESIS_CM else 0) := by
    split_ifs
    · linarith
    · simpa using h
  simp only [classify]
  rw [if_pos hh]

lemma evalStep_stop (cfg : Config) (t : Nat) (d : ℚ) (m : Machine)
    (hd : INGEST_MIN_CM < d) (hstop : d ≤ cfg.limit_stop_cm) :
    (evalStep cfg m (t, d)).sys.safety_level = 2
    ∧ (evalStep cfg m (t, d)).stats
        = (if m.stats.last_level_stats = 2 then m.stats
           else { red_entries := m.stats.red_entries + 1,
                  yellow_entries := m.stats.yellow_entries,
                  comm_drops := m.stats.comm_drops, last_level_stats := 2 })
    ∧ (m.stats.last_level_stats = 2 →
        (evalStep cfg m (t, d)).history = m.history
        ∧ (evalStep cfg m (t, d)).logHead = m.logHead) := by
  have he : evalStep cfg m (t, d)
      = (checkSafetyAndRelays cfg t
          { m with sys := { m.sys with distance_cm := d, last_packet_ms := t } }).1 := by
    simp [evalStep, acceptSample, hd]
  have halive : ¬ WATCHDOG_MS < t -
      ({ m with sys := { m.sys with distance_cm := d, last_packet_ms := t } } : Machine).sys.last_packet_ms := by
    simp [WATCHDOG_MS]
  have hs1 : tickSys1 cfg t { m with sys := { m.sys with distance_cm := d, last_packet_ms := t } }
      = { m.sys with
          distance_cm := d
          last_packet_ms := t
          link_quality_pct := linkQuality (t - t)
          safety_level := 2
          status_msg := "DANGER: STOP"
          last_known_zone := 2 } := by
    rw [tickSys1_alive cfg t _ halive]
    simp [classify_stop_of_le cfg _ d hstop]
  rw [he, tick_eq]
  dsimp only
  refine ⟨?_, ?_, ?_⟩
  · rw [setRelays_level, hs1]
  · by_cases hlast : m.stats.last_level_stats = 2
    · rw [recordTransition_of_eq _ _ _ _ _ (by rw [hs1]; exact hlast.symm)]
      simp [hlast]
    · rw [recordTransition_stop_of_ne _ _ _ _ _ (by rw [hs1]) hlast]
      simp [hlast]
  · intro hlast
    rw [recordTransition_of_eq _ _ _ _ _ (by rw [hs1]; exact hlast.symm)]
    exact ⟨rfl, rfl⟩

end CraneGuard

namespace CraneGuard

lemma evalSeq_stop_dwell (cfg : Config) (d : ℚ) (hd : INGEST_MIN_CM < d)
    (hstop : d ≤ cfg.limit_stop_cm) :
    ∀ (ts : List Nat) (m : Machine), m.stats.last_level_stats = 2 →
      (evalSeq cfg m (ts.map fun t => (t, d))).stats = m.stats
      ∧ (evalSeq cfg m (ts.map fun t => (t, d))).history = m.history
      ∧ (evalSeq cfg m (ts.map fun t => (t, d))).logHead = m.logHead := by
  intro ts
  induction ts with
  | nil => exact fun m _ => ⟨rfl, rfl, rfl⟩
  | cons t ts ih =>
    intro m hm
    have hstep := evalStep_stop cfg t d m hd hstop
    have hstats : (evalStep cfg m (t, d)).stats = m.stats := by
      rw [hstep.2.1, if_pos hm]
    have hlast2 : (evalStep cfg m (t, d)).stats.last_level_stats = 2 := by
      rw [hstats, hm]
    obtain ⟨hh, hl⟩ := hstep.2.2 hm
    obtain ⟨s1, s2, s3⟩ := ih (evalStep cfg m (t, d)) hlast2
    exact ⟨s1.trans hstats, s2.trans hh, s3.trans hl⟩

/-- C6: counting and logging are edge-triggered: over a run of sample-and-
evaluate ticks whose distance is held constant inside the Stop zone,
`red_entries` (the stop counter) rises by exactly one - on the entry tick,
where the level first differs from `last_level_stats` - while the other
counters, the log buffer and the log head stay exactly as the entry tick
left them; moreover after any single evaluation tick `last_level_stats`
equals the tick's `safety_level`. -/
theorem c6_edge_triggered_counting (cfg cfg' : Config) (anyNow : Nat) (m m' : Machine)
    (d : ℚ) (t0 : Nat) (ts : List Nat)
    (hd : INGEST_MIN_CM < d) (hstop : d ≤ cfg.limit_stop_cm)
    (hentry : m.stats.last_level_stats ≠ 2) :
    ((checkSafetyAndRelays cfg' anyNow m').1.stats.last_level_stats
        = (checkSafetyAndRelays cfg' anyNow m').1.sys.safety_level)
    ∧ (evalSeq cfg m ((t0 :: ts).map fun t => (t, d))).stats.red_entries
        = m.stats.red_entries + 1
    ∧ (evalSeq cfg m ((t0 :: ts).map fun t => (t, d))).stats.yellow_entries
        = m.stats.yellow_entries
    ∧ (evalSeq cfg m ((t0 :: ts).map fun t => (t, d))).stats.comm_drops
        = m.stats.comm_drops
    ∧ (evalSeq cfg m ((t0 :: ts).map fun t => (t, d))).history
        = (evalStep cfg m (t0, d)).history
    ∧ (evalSeq cfg m ((t0 :: ts).map fun t => (t, d))).logHead
        = (evalStep cfg m (t0, d)).logHead := by
  have hstep := evalStep_stop cfg t0 d m hd hstop
  have hstats1 : (evalStep cfg m (t0, d)).stats
      = { red_entries := m.stats.red_entries + 1, yellow_entries := m.stats.yellow_entries,
          comm_drops := m.stats.comm_drops, last_level_stats := 2 } := by
    rw [hstep.2.1, if_neg hentry]
  have hlast2 : (evalStep cfg m (t0, d)).stats.last_level_stats = 2 := by
    rw [hstats1]
  have hdwell := evalSeq_stop_dwell cfg d hd hstop ts (evalStep cfg m (t0, d)) hlast2
  have hseq : evalSeq cfg m ((t0 :: ts).map fun t => (t, d))
      = evalSeq cfg (evalStep cfg m (t0, d)) (ts.map fun t => (t, d)) := rfl
  refine ⟨tick_last_level cfg' anyNow m', ?_, ?_, ?_, ?_, ?_⟩ <;> rw [hseq]
  · rw [hdwell.1, hstats1]
  · rw [hdwell.1, hstats1]
  · rw [hdwell.1, hstats1]
  · exact hdwell.2.1
  · exact hdwell.2.2

/-- C6 witness: the edge-triggered counting theorem applied to the startup
machine with distance 480 cm (inside the Stop zone for threshold 500) held
over the three tick times 0, 1, 2. -/
theorem c6_edge_triggered_counting_witness :
    ((checkSafetyAndRelays exampleCfg 0 initMachine).1.stats.last_level_stats
        = (checkSafetyAndRelays exampleCfg 0 initMachine).1.sys.safety_level)
    ∧ (evalSeq exampleCfg initMachine ((0 :: [1, 2]).map fun t => (t, (480 : ℚ)))).stats.red_entries
        = initMachine.stats.red_entries + 1
    ∧ (evalSeq exampleCfg initMachine ((0 :: [1, 2]).map fun t => (t, (480 : ℚ)))).stats.yellow_entries
        = initMachine.stats.yellow_entries
    ∧ (evalSeq exampleCfg initMachine ((0 :: [1, 2]).map fun t => (t, (480 : ℚ)))).stats.comm_drops
        = initMachine.stats.comm_drops
    ∧ (evalSeq exampleCfg initMachine ((0 :: [1, 2]).map fun t => (t, (480 : ℚ)))).history
        = (evalStep exampleCfg initMachine (0, (480 : ℚ))).history
    ∧ (evalSeq exampleCfg initMachine ((0 :: [1, 2]).map fun t => (t, (480 : ℚ)))).logHead
        = (evalStep exampleCfg initMachine (0, (480 : ℚ))).logHead :=
  c6_edge_triggered_counting exampleCfg exampleCfg 0 initMachine initMachine 480 0 [1, 2]
    (by decide) (by decide) (by decide)

end CraneGuard

namespace CraneGuard

lemma failsafe_of_ne (z : Nat) (h : z ≠ 0) : failsafe z = (3, "SIGNAL LOST") := by
  simp [failsafe, h]

lemma recordTransition_commloss (now : Nat) (sys : SafetyState) (stats : Statistics)
    (h : Array EventLog) (head : Nat) (hlvl : sys.safety_level = 3)
    (hne : stats.last_level_stats ≠ 3) :
    (recordTransition now sys stats h head).1
        = { red_entries := stats.red_entries, yellow_entries := stats.yellow_entries,
            comm_drops := stats.comm_drops + 1, last_level_stats := 3 }
    ∧ (recordTransition now sys stats h head).2.1
        = (logEvent (getUptimeStr now) sys.distance_cm (zoneName sys.safety_level)
            sys.link_quality_pct h head).1
    ∧ (recordTransition now sys stats h head).2.2
        = (logEvent (getUptimeStr now) sys.distance_cm (zoneName sys.safety_level)
            sys.link_quality_pct h head).2 := by
  have hcond : sys.safety_level ≠ stats.last_level_stats := by
    rw [hlvl]; exact fun hh => hne hh.symm
  simp only [recordTransition]
  rw [if_pos hcond, if_pos (Or.inr hlvl)]
  refine ⟨?_, rfl, rfl⟩
  simp [hlvl]

lemma logEvent_fst (t : String) (dist : ℚ) (z : String) (q : Int)
    (h : Array EventLog) (head : Nat) (hh : head < h.size) :
    (logEvent t dist z q h head).1 = h.set ⟨head, hh⟩ ⟨t, dist, z, q⟩ := by
  simp [logEvent, hh]

lemma set_getD (a : Array EventLog) (i : Nat) (hi : i < a.size) (v d : EventLog) :
    (a.set ⟨i, hi⟩ v).getD i d = v := by
  simp [Array.getD, hi]

/-- C10: a CommLoss transition taken while no valid sample was ever accepted
(`distance_cm = 0`) increments `comm_drops` and appends a ring-buffer entry
with distance 0 (the append condition admits it because the level is
CommLoss), yet that entry passes neither the `/live` filter (distance > 0)
nor the CSV filter (distance != 0), so it never appears in either exposed
log snapshot. -/
theorem c10_commloss_entry_invisible (cfg : Config) (now : Nat) (m : Machine)
    (hdist : m.sys.distance_cm = 0)
    (hlost : WATCHDOG_MS < now - m.sys.last_packet_ms)
    (hzone : m.sys.last_known_zone ≠ 0)
    (hlast : m.stats.last_level_stats ≠ 3)
    (hhead : m.logHead < m.history.size) :
    (checkSafetyAndRelays cfg now m).1.stats.comm_drops = m.stats.comm_drops + 1
    ∧ (checkSafetyAndRelays cfg now m).1.history.getD m.logHead ⟨"", 0, "", 0⟩
        = ⟨getUptimeStr now, 0, "LOSS", linkQuality (now - m.sys.last_packet_ms)⟩
    ∧ liveKeeps ⟨getUptimeStr now, 0, "LOSS", linkQuality (now - m.sys.last_packet_ms)⟩ = false
    ∧ csvKeeps ⟨getUptimeStr now, 0, "LOSS", linkQuality (now - m.sys.last_packet_ms)⟩ = false
    ∧ (⟨getUptimeStr now, 0, "LOSS", linkQuality (now - m.sys.last_packet_ms)⟩ : EventLog)
        ∉ liveHist (checkSafetyAndRelays cfg now m).1.history
    ∧ (⟨getUptimeStr now, 0, "LOSS", linkQuality (now - m.sys.last_packet_ms)⟩ : EventLog)
        ∉ csvRows (checkSafetyAndRelays cfg now m).1.history := by
  have hs1 : tickSys1 cfg now m = { m.sys with
      link_quality_pct := linkQuality (now - m.sys.last_packet_ms),
      safety_level := 3, status_msg := "SIGNAL LOST" } := by
    rw [tickSys1_lost cfg now m hlost, failsafe_of_ne _ hzone]
  have hrec := recordTransition_commloss now (tickSys1 cfg now m) m.stats m.history m.logHead
    (by rw [hs1]) hlast
  have hkeep1 : liveKeeps
      ⟨getUptimeStr now, 0, "LOSS", linkQuality (now - m.sys.last_packet_ms)⟩ = false := by
    simp [liveKeeps]
  have hkeep2 : csvKeeps
      ⟨getUptimeStr now, 0, "LOSS", linkQuality (now - m.sys.last_packet_ms)⟩ = false := by
    simp [csvKeeps]
  have hdrops : (checkSafetyAndRelays cfg now m).1.stats.comm_drops
      = m.stats.comm_drops + 1 := by
    rw [tick_eq]; dsimp only; rw [hrec.1]
  have hhist : (checkSafetyAndRelays cfg now m).1.history
      = m.history.set ⟨m.logHead, hhead⟩
          ⟨getUptimeStr now, 0, "LOSS", linkQuality (now - m.sys.last_packet_ms)⟩ := by
    rw [tick_eq]; dsimp only
    rw [hrec.2.1, hs1]
    dsimp only
    rw [hdist]
    exact logEvent_fst _ _ _ _ _ _ hhead
  refine ⟨hdrops, ?_, hkeep1, hkeep2, ?_, ?_⟩
  · rw [hhist]
    exact set_getD m.history m.logHead hhead _ _
  · intro hmem
    rcases List.mem_filter.mp hmem with ⟨-, hp⟩
    rw [hkeep1] at hp
    exact Bool.false_ne_true hp
  · intro hmem
    rcases List.mem_filter.mp hmem with ⟨-, hp⟩
    rw [hkeep2] at hp
    exact Bool.false_ne_true hp

/-- C10 witness: the invisible-CommLoss theorem applied to the concrete
never-sampled machine `mStopZone` (distance 0, last known zone Stop) at time
2000 ms. -/
theorem c10_commloss_entry_invisible_witness :
    (checkSafetyAndRelays exampleCfg 2000 mStopZone).1.stats.comm_drops
        = mStopZone.stats.comm_drops + 1
    ∧ (checkSafetyAndRelays exampleCfg 2000 mStopZone).1.history.getD mStopZone.logHead
        ⟨"", 0, "", 0⟩
        = ⟨getUptimeStr 2000, 0, "LOSS", linkQuality (2000 - mStopZone.sys.last_packet_ms)⟩
    ∧ liveKeeps ⟨getUptimeStr 2000, 0, "LOSS",
        linkQuality (2000 - mStopZone.sys.last_packet_ms)⟩ = false
    ∧ csvKeeps ⟨getUptimeStr 2000, 0, "LOSS",
        linkQuality (2000 - mStopZone.sys.last_packet_ms)⟩ = false
    ∧ (⟨getUptimeStr 2000, 0, "LOSS",
        linkQuality (2000 - mStopZone.sys.last_packet_ms)⟩ : EventLog)
        ∉ liveHist (checkSafetyAndRelays exampleCfg 2000 mStopZone).1.history
    ∧ (⟨getUptimeStr 2000, 0, "LOSS",
        linkQuality (2000 - mStopZone.sys.last_packet_ms)⟩ : EventLog)
        ∉ csvRows (checkSafetyAndRelays exampleCfg 2000 mStopZone).1.history :=
  c10_commloss_entry_invisible exampleCfg 2000 mStopZone
    (by decide) (by decide) (by decide) (by decide) (by decide)

end CraneGuard
